import Mathlib

/-!
Verification development for the crop-yield prediction platform.
Shallow embedding over ℚ of the feature-engineering pipeline
(src/features.py), the confidence/interval utilities (src/utils.py,
backend/ml_utils.py), the prediction service slice (src/api/predict.py)
and the advisory engine (src/api/advisory.py).

Machine floats are modelled by exact rationals; Python's `round` and the
f-string `.0f`/`.1f` formats are modelled by round-half-to-even on ℚ.
-/

namespace CropYield

/-- Round-half-to-even of a rational to an integer, as Python `round` does
on the ideal (non-float) value. -/
def halfEvenZ (q : ℚ) : ℤ :=
  let f : ℤ := ⌊q⌋
  let frac : ℚ := q - (f : ℚ)
  if frac < 1/2 then f
  else if 1/2 < frac then f + 1
  else if f % 2 = 0 then f else f + 1

/-- `roundQ n q` models Python `round(q, n)`. -/
def roundQ (ndigits : ℕ) (q : ℚ) : ℚ :=
  ((halfEvenZ (q * (10 : ℚ) ^ ndigits) : ℚ)) / (10 : ℚ) ^ ndigits

/-- Models the Python format `f"{q:.0f}"`. -/
def fmtFixed0 (q : ℚ) : String := toString (halfEvenZ q)

/-- Models the Python format `f"{q:.1f}"` (for the nonnegative values the
advisory code formats; negative values are not produced there). -/
def fmtFixed1 (q : ℚ) : String :=
  let n := halfEvenZ (q * 10)
  if n < 0 then "-" ++ toString ((-n) / 10) ++ "." ++ toString ((-n) % 10)
  else toString (n / 10) ++ "." ++ toString (n % 10)

/-- Lexicographic strict order on character lists (Python string `<`). -/
def charListLt : List Char → List Char → Bool
  | [], [] => false
  | [], _ :: _ => true
  | _ :: _, [] => false
  | a :: as, b :: bs => if a < b then true else if b < a then false else charListLt as bs

/-- Python string `<` over code points. -/
def strLtB (a b : String) : Bool := charListLt a.toList b.toList

/-- `pat in s` (Python substring containment). -/
def listIsInfix (pat : List Char) : List Char → Bool
  | [] => pat.isEmpty
  | c :: rest => pat.isPrefixOf (c :: rest) || listIsInfix pat (rest)

/-- Python `pat in s` on strings. -/
def strContains (s pat : String) : Bool := listIsInfix pat.toList s.toList

/-- Python `s.endswith(pat)`. -/
def strEndsWith (s pat : String) : Bool := pat.toList.isSuffixOf s.toList

/-- Insert into a ≤-sorted list of strings. -/
def insertStr (x : String) : List String → List String
  | [] => [x]
  | y :: ys => if strLtB x y then x :: y :: ys else y :: insertStr x ys

/-- `np.unique` on a string array: sorted distinct values. -/
def npUniqueSorted (l : List String) : List String := l.dedup.foldr insertStr []

namespace Utils

/-- src/utils.py `calculate_confidence_score`: base confidence from model
uncertainty, adjusted by feature quality, clamped to [0.1, 1.0]. -/
def calculate_confidence_score (prediction model_std feature_quality : ℚ) : ℚ :=
  let base_confidence := max 0 (if 0 < prediction then 1 - model_std / prediction else 0.5)
  let confidence := base_confidence * feature_quality
  max 0.1 (min 1.0 confidence)

end Utils

namespace MlUtils

/-- backend/ml_utils.py `CropYieldPredictor.calculate_confidence_score`.
`test_r2` is the optional `metrics['test_r2']` entry of the model metadata;
`draw` is the value of the `np.random.uniform(0.9, 1.1)` call, made an
explicit argument of the embedding. -/
def calculate_confidence_score (test_r2 : Option ℚ) (prediction draw : ℚ) : ℚ :=
  let base0 : ℚ :=
    match test_r2 with
    | some r2 => min 0.95 (max 0.5 r2)
    | none => 0.8
  let base := if prediction < 0.5 ∨ 15 < prediction then base0 * 0.8 else base0
  max 0.5 (min 0.95 (base * draw))

/-- backend/ml_utils.py `CropYieldPredictor.calculate_prediction_interval`:
confidence-proportional spread, lower bound clamped at 0, both bounds
rounded to 2 decimals. -/
def calculate_prediction_interval (prediction confidence : ℚ) : ℚ × ℚ :=
  let std_error := prediction * (1 - confidence) * 0.5
  let lower_bound := max 0 (prediction - 1.96 * std_error)
  let upper_bound := prediction + 1.96 * std_error
  (roundQ 2 lower_bound, roundQ 2 upper_bound)

end MlUtils

namespace PredictApi

/-- src/api/predict.py lines 305-311: the uncertainty proxy; `some s` is
the case where the model exposes `feature_importances_` summing to `s`. -/
def prediction_std (featImportanceSum : Option ℚ) : ℚ :=
  match featImportanceSum with
  | some s => max 0.2 (1.0 - s)
  | none => 0.3

/-- The part of `PredictionService.predict` (src/api/predict.py lines
302-334) downstream of the bound model: `modelPred` is the raw regression
output `self.model.predict(X)[0]`. -/
structure PredictOut where
  predicted_yield : ℚ
  interval_low : ℚ
  interval_high : ℚ
  confidence : ℚ

/-- src/api/predict.py `PredictionService.predict`, result assembly:
interval `[max(0, p − 1.96·std), p + 1.96·std]`, confidence from the
full-pipeline utility, all rounded as in the source. No clamp is applied
to the point estimate itself. -/
def servicePredict (modelPred : ℚ) (featImportanceSum : Option ℚ)
    (data_quality : ℚ) : PredictOut :=
  let std := prediction_std featImportanceSum
  let low := max 0 (modelPred - 1.96 * std)
  let high := modelPred + 1.96 * std
  let conf := Utils.calculate_confidence_score modelPred std data_quality
  ⟨roundQ 2 modelPred, roundQ 2 low, roundQ 2 high, roundQ 3 conf⟩

end PredictApi

namespace Features

/-- A pandas column: numeric (`float64`/`int64`) or object (string) dtype.
Floats are modelled by exact rationals; the model has no missing cells, so
the source's `fillna` steps are identities here. -/
inductive ColData
  | num (vs : List ℚ)
  | str (vs : List String)
deriving DecidableEq

/-- A pandas DataFrame, column-major: ordered (name, column) pairs. -/
abbrev Frame := List (String × ColData)

def hasCol (df : Frame) (n : String) : Bool := df.any (fun c => c.1 == n)

def colNames (df : Frame) : List String := df.map Prod.fst

def getNum (df : Frame) (n : String) : List ℚ :=
  match df.find? (fun c => c.1 == n) with
  | some (_, ColData.num vs) => vs
  | _ => []

def getStr (df : Frame) (n : String) : List String :=
  match df.find? (fun c => c.1 == n) with
  | some (_, ColData.str vs) => vs
  | _ => []

/-- pandas `df[name] = values`: overwrite the column in place if it
exists, else append it at the end. -/
def setCol (df : Frame) (n : String) (d : ColData) : Frame :=
  if hasCol df n then df.map (fun c => if c.1 == n then (n, d) else c)
  else df ++ [(n, d)]

def setNum (df : Frame) (n : String) (vs : List ℚ) : Frame := setCol df n (ColData.num vs)

def dropCols (df : Frame) (names : List String) : Frame :=
  df.filter (fun c => !(names.contains c.1))

/-- `df[names]`: subset-and-reorder by the given name list. -/
def selectColsFrame (df : Frame) (names : List String) : Frame :=
  names.filterMap (fun n => df.find? (fun c => c.1 == n))

def listMinQ : List ℚ → ℚ
  | [] => 0
  | x :: xs => xs.foldl min x

def listMaxQ : List ℚ → ℚ
  | [] => 0
  | x :: xs => xs.foldl max x

/-- The two `np.sin`-based cyclical year features of
`create_temporal_features`; the transcendental maps `y ↦ sin(2πy/3)` and
`y ↦ sin(2πy/5)` are uninterpreted parameters of the embedding. -/
structure TransFns where
  cycle3 : ℚ → ℚ
  cycle5 : ℚ → ℚ

/-- src/features.py `FeatureEngineer.create_weather_features`. -/
def create_weather_features (df : Frame) : Frame :=
  let df :=
    if hasCol df "temp_mean" && hasCol df "temp_max" && hasCol df "temp_min" then
      let tmax := getNum df "temp_max"
      let tmin := getNum df "temp_min"
      let df := setNum df "temp_range" (List.zipWith (fun a b => a - b) tmax tmin)
      let df := setNum df "temp_stress" (tmax.map (fun t => if 35 < t then t - 35 else 0))
      setNum df "temp_cold_stress" (tmin.map (fun t => if t < 15 then 15 - t else 0))
    else df
  let df :=
    if hasCol df "precip_sum" && hasCol df "precip_mean" then
      let ps := getNum df "precip_sum"
      let pm := getNum df "precip_mean"
      let df := setNum df "precip_intensity"
        (List.zipWith (fun s m => s / (m + 1/1000000)) ps pm)
      let df := setNum df "drought_stress" (ps.map (fun p => if p < 500 then 500 - p else 0))
      setNum df "flood_risk" (ps.map (fun p => if 1500 < p then p - 1500 else 0))
    else df
  let df :=
    if hasCol df "humidity_mean" then
      setNum df "humidity_stress"
        ((getNum df "humidity_mean").map (fun h => if 85 < h then h - 85 else 0))
    else df
  let df :=
    if hasCol df "solar_mean" then
      setNum df "solar_deficit"
        ((getNum df "solar_mean").map (fun s => if s < 15 then 15 - s else 0))
    else df
  if hasCol df "gdd" then
    let g := getNum df "gdd"
    let df := setNum df "gdd_optimal" (g.map (fun x => if 2000 ≤ x ∧ x ≤ 3000 then 1 else 0))
    let df := setNum df "gdd_deficit" (g.map (fun x => if x < 2000 then 2000 - x else 0))
    setNum df "gdd_excess" (g.map (fun x => if 3000 < x then x - 3000 else 0))
  else df

/-- src/features.py `FeatureEngineer.create_soil_features`. -/
def create_soil_features (df : Frame) : Frame :=
  let df :=
    if hasCol df "soil_clay" && hasCol df "soil_sand" && hasCol df "soil_silt" then
      let clay := getNum df "soil_clay"
      let sand := getNum df "soil_sand"
      let silt := getNum df "soil_silt"
      let df := setNum df "clay_sand_ratio"
        (List.zipWith (fun c s => c / (s + 1/1000000)) clay sand)
      let df := setNum df "silt_clay_ratio"
        (List.zipWith (fun si c => si / (c + 1/1000000)) silt clay)
      setNum df "soil_texture_score"
        (List.zipWith (fun c p => c * 0.3 + p.1 * 0.5 + p.2 * 0.2) clay (silt.zip sand))
    else df
  let df :=
    if hasCol df "soil_phh2o" then
      let ph := getNum df "soil_phh2o"
      let df := setNum df "soil_ph_optimal"
        (ph.map (fun x => if 6 ≤ x ∧ x ≤ 7 then 1 else 0))
      setNum df "soil_ph_stress" (ph.map (fun x => |x - 6.5|))
    else df
  let df :=
    if hasCol df "soil_soc" then
      let soc := getNum df "soil_soc"
      let df := setNum df "soil_organic_high" (soc.map (fun x => if 2 < x then 1 else 0))
      setNum df "soil_organic_low" (soc.map (fun x => if x < 1 then 1 else 0))
    else df
  if hasCol df "soil_cec" && hasCol df "soil_phh2o" then
    setNum df "nutrient_availability"
      (List.zipWith (fun cec st => cec * (1 - st)) (getNum df "soil_cec")
        (getNum df "soil_ph_stress"))
  else df

/-- src/features.py `FeatureEngineer.create_temporal_features`.
The division convention of ℚ makes `year_normalized` equal 0 where pandas
produces NaN (a single distinct year); no claim depends on that cell. -/
def create_temporal_features (fns : TransFns) (df : Frame) : Frame :=
  if hasCol df "year" then
    let y := getNum df "year"
    let ymin := listMinQ y
    let ymax := listMaxQ y
    let df := setNum df "year_normalized" (y.map (fun v => (v - ymin) / (ymax - ymin)))
    let df := setNum df "year_cycle_3" (y.map fns.cycle3)
    setNum df "year_cycle_5" (y.map fns.cycle5)
  else df

/-- Row-wise sum of the named numeric columns (`df[cols].sum(axis=1)`). -/
def sumCols (df : Frame) (names : List String) : List ℚ :=
  match names with
  | [] => []
  | n :: ns => ns.foldl (fun acc m => List.zipWith (· + ·) acc (getNum df m)) (getNum df n)

/-- src/features.py `FeatureEngineer.create_interaction_features`. -/
def create_interaction_features (df : Frame) : Frame :=
  let df :=
    if hasCol df "precip_sum" && hasCol df "soil_clay" then
      setNum df "water_retention"
        (List.zipWith (fun p c => p * c / 100) (getNum df "precip_sum") (getNum df "soil_clay"))
    else df
  let df :=
    if hasCol df "temp_mean" && hasCol df "soil_soc" then
      setNum df "temp_organic_interaction"
        (List.zipWith (· * ·) (getNum df "temp_mean") (getNum df "soil_soc"))
    else df
  let df :=
    if hasCol df "gdd" && hasCol df "soil_ph_optimal" then
      setNum df "gdd_ph_interaction"
        (List.zipWith (· * ·) (getNum df "gdd") (getNum df "soil_ph_optimal"))
    else df
  let stress_cols := (colNames df).filter (fun n => strContains n "stress")
  if 1 < stress_cols.length then setNum df "total_stress" (sumCols df stress_cols)
  else df

/-- sklearn `LabelEncoder`: `classes_` is the sorted list of distinct
fitted values. -/
structure LabelEncoder where
  classes : List String
deriving DecidableEq

def LabelEncoder.fit (vals : List String) : LabelEncoder := ⟨npUniqueSorted vals⟩

def LabelEncoder.transformOne (e : LabelEncoder) (v : String) : ℕ := e.classes.indexOf v

/-- `LabelEncoder.transform`: integer codes, raising (`Except.error`) on a
value outside `classes_`. -/
def LabelEncoder.transform (e : LabelEncoder) (vals : List String) : Except String (List ℕ) :=
  if vals.all (fun v => e.classes.contains v) then Except.ok (vals.map e.transformOne)
  else Except.error "y contains previously unseen labels"

/-- sklearn `StandardScaler` state: fitted mean and (biased) variance. -/
structure Scaler where
  mean : ℚ
  var : ℚ
deriving DecidableEq

/-- Exact square root for perfect-square rationals (numerator and
denominator both perfect squares); the scalers in this development are
only evaluated on data whose variance is such a square, where this agrees
with sklearn's float `sqrt`. -/
def ratSqrt (q : ℚ) : ℚ := ((Nat.sqrt q.num.toNat : ℚ)) / ((Nat.sqrt q.den : ℚ))

/-- sklearn scale: `sqrt(var_)`, with zero variance replaced by 1
(`_handle_zeros_in_scale`), so a constant column is shifted but never
divided by zero. -/
def Scaler.scale (s : Scaler) : ℚ := if s.var = 0 then 1 else ratSqrt s.var

def Scaler.transform (s : Scaler) (x : ℚ) : ℚ := (x - s.mean) / s.scale

def listMean (l : List ℚ) : ℚ := l.sum / (l.length : ℚ)

/-- `StandardScaler.fit` on one column. -/
def Scaler.fit (vs : List ℚ) : Scaler :=
  let m := listMean vs
  ⟨m, ((vs.map (fun x => (x - m) ^ 2)).sum) / (vs.length : ℚ)⟩

/-- The engineer's mutable state (src/features.py `FeatureEngineer.__init__`):
per-column scalers and encoders, the engineered feature-name list, and the
frozen selected-feature list. -/
structure Engineer where
  scalers : List (String × Scaler)
  encoders : List (String × LabelEncoder)
  feature_names : List String
  selected_features : List String
deriving DecidableEq

def Engineer.empty : Engineer := ⟨[], [], [], []⟩

def lookupA {α : Type} (l : List (String × α)) (k : String) : Option α :=
  match l.find? (fun p => p.1 == k) with
  | some p => some p.2
  | none => none

def insertA {α : Type} (l : List (String × α)) (k : String) (v : α) : List (String × α) :=
  if l.any (fun p => p.1 == k) then l.map (fun p => if p.1 == k then (k, v) else p)
  else l ++ [(k, v)]

def categorical_cols : List String := ["state", "district", "crop"]

/-- The serve-time (`fit=False`) branch of `encode_categorical_features`
for one column: if every value is a known class, transform directly;
otherwise remap each unseen value to `classes_[0]` first (the numpy
indexing `classes_[0]` raises on an empty class list). -/
def encodeServeCol (e : LabelEncoder) (vals : List String) : Except String (List ℕ) :=
  if vals.all (fun v => e.classes.contains v) then e.transform vals
  else
    match e.classes with
    | [] => Except.error "index 0 is out of bounds"
    | c0 :: _ => e.transform (vals.map (fun v => if e.classes.contains v then v else c0))

/-- One iteration of the `encode_categorical_features` loop, for the
column `col`: fit time refits and encodes (`fit_transform`); serve time
replays a fitted encoder with the unseen-value fallback of
`encodeServeCol`. -/
def encodeStep (fit : Bool) (acc : Frame × Engineer) (col : String) :
    Except String (Frame × Engineer) :=
  if hasCol acc.1 col then
    if fit then
      let vals := getStr acc.1 col
      let e := LabelEncoder.fit vals
      (e.transform vals).map (fun codes =>
        (setNum acc.1 (col ++ "_encoded") (codes.map (fun n => (n : ℚ))),
         Engineer.mk acc.2.scalers (insertA acc.2.encoders col e)
           acc.2.feature_names acc.2.selected_features))
    else
      match lookupA acc.2.encoders col with
      | some e =>
        (encodeServeCol e (getStr acc.1 col)).map (fun codes =>
          (setNum acc.1 (col ++ "_encoded") (codes.map (fun n => (n : ℚ))), acc.2))
      | none => Except.ok acc
  else Except.ok acc

/-- src/features.py `FeatureEngineer.encode_categorical_features`: the
loop over `['state', 'district', 'crop']`. -/
def encode_categorical_features (eng : Engineer) (df : Frame) (fit : Bool) :
    Except String (Frame × Engineer) :=
  categorical_cols.foldlM (encodeStep fit) (df, eng)

def isNumericCol : ColData → Bool
  | ColData.num _ => true
  | ColData.str _ => false

def getNumCol : ColData → List ℚ
  | ColData.num vs => vs
  | ColData.str _ => []

def nuniqueCol : ColData → ℕ
  | ColData.num vs => vs.dedup.length
  | ColData.str vs => vs.dedup.length

def isScaleExcludedName (c : String) : Bool :=
  strEndsWith c "_encoded" || strEndsWith c "_optimal" ||
    strEndsWith c "_high" || strEndsWith c "_low"

/-- src/features.py `scale_features` lines 182-191: the per-call decision
of which numeric columns to scale — excluding encoded/binary-suffixed
names and any column with at most 2 distinct values in the *current*
input. -/
def cols_to_scale (X : Frame) : List String :=
  (X.filter (fun c => isNumericCol c.2 &&
    !(isScaleExcludedName c.1 || decide (nuniqueCol c.2 ≤ 2)))).map Prod.fst

/-- src/features.py `FeatureEngineer.scale_features`: at fit time every
chosen column gets a freshly fitted `StandardScaler` (`fit_transform`
refits an existing entry too); at serve time a chosen column is
transformed only if a fitted scaler exists for it. -/
def scale_features (eng : Engineer) (X : Frame) (fit : Bool) : Frame × Engineer :=
  let cols := cols_to_scale X
  if fit then
    cols.foldl
      (fun acc col =>
        let s := Scaler.fit (getNum acc.1 col)
        (setNum acc.1 col ((getNum acc.1 col).map s.transform),
         Engineer.mk (insertA acc.2.scalers col s) acc.2.encoders
           acc.2.feature_names acc.2.selected_features))
      (X, eng)
  else
    (cols.foldl
      (fun X col =>
        match lookupA eng.scalers col with
        | some s => setNum X col ((getNum X col).map s.transform)
        | none => X)
      X, eng)

def non_feature_cols : List String :=
  ["yield_t_ha", "year", "state", "district", "crop", "area_ha", "production_tonnes"]

/-- src/features.py `FeatureEngineer.engineer_features`: derived features,
categorical encoding, and (at fit time) the recorded feature-name list. -/
def engineer_features (fns : TransFns) (eng : Engineer) (df : Frame) (fit : Bool) :
    Except String (Frame × Engineer) :=
  let df := create_weather_features df
  let df := create_soil_features df
  let df := create_temporal_features fns df
  let df := create_interaction_features df
  (encode_categorical_features eng df fit).map (fun r =>
    if fit then
      (r.1, Engineer.mk r.2.scalers r.2.encoders
        ((colNames r.1).filter (fun c => !(non_feature_cols.contains c)))
        r.2.selected_features)
    else r)

/-- `SelectKBest.get_support` semantics: keep, in original column order,
the k highest-scoring columns (stable toward earlier columns on ties). -/
def selectKBest (pairs : List (String × ℚ)) (k : ℕ) : List String :=
  let e := pairs.enum
  (e.filter (fun p =>
    decide ((e.filter (fun q =>
      decide (p.2.2 < q.2.2) || (q.2.2 == p.2.2 && decide (q.1 < p.1)))).length < k))).map
    (fun p => p.2.1)

/-- src/features.py `FeatureEngineer.select_features`: univariate ranking
of the numeric columns against the target. The `f_regression` score is an
uninterpreted parameter `score` (column values, target) ↦ F-statistic;
the `fillna(median)` step is an identity in this missing-value-free
model. -/
def select_features (score : List ℚ → List ℚ → ℚ) (eng : Engineer) (X : Frame)
    (y : List ℚ) (k : ℕ) : List String × Engineer :=
  let numeric := X.filter (fun c => isNumericCol c.2)
  let pairs := numeric.map (fun c => (c.1, score (getNumCol c.2) y))
  let sel := selectKBest pairs (min k numeric.length)
  (sel, Engineer.mk eng.scalers eng.encoders eng.feature_names sel)

def cols_to_remove : List String :=
  ["year", "state", "district", "crop", "area_ha", "production_tonnes"]

/-- src/features.py `FeatureEngineer.prepare_features`: engineer, split
off the target, drop identifier columns, select (fit) or replay the
frozen selection by silent intersection (serve), scale, fill. -/
def prepare_features (fns : TransFns) (score : List ℚ → List ℚ → ℚ) (eng : Engineer)
    (df : Frame) (target_col : String) (fit : Bool) (feature_selection : Bool) :
    Except String (Frame × Option (List ℚ) × Engineer) :=
  (engineer_features fns eng df fit).map (fun r =>
    let dfe := r.1
    let eng := r.2
    let y := if hasCol dfe target_col then some (getNum dfe target_col) else none
    let X := if hasCol dfe target_col then dropCols dfe [target_col] else dfe
    let X := dropCols X cols_to_remove
    let sel :=
      if fit && feature_selection && y.isSome then
        let se := select_features score eng X (y.getD []) 50
        (selectColsFrame X se.1, se.2)
      else if !fit && !eng.selected_features.isEmpty then
        let available := eng.selected_features.filter (fun c => hasCol X c)
        (selectColsFrame X available, eng)
      else (X, eng)
    let scaled := scale_features sel.2 sel.1 fit
    (scaled.1, y, scaled.2))

end Features

namespace Advisory

/-- ASCII lowering of one character (Python `str.lower` restricted to the
ASCII crop/state names this code handles). -/
def lowerChar (c : Char) : Char :=
  if 'A' ≤ c ∧ c ≤ 'Z' then Char.ofNat (c.toNat + 32) else c

/-- Python `s.lower()` for ASCII strings. -/
def strToLower (s : String) : String := ⟨s.toList.map lowerChar⟩

/-- Lookup in the top-feature attribution dictionary
(`{f['feature']: f['value'] for f in top_features}` followed by `.get`,
so a duplicated name resolves to its last occurrence). -/
def tfGetD (tf : List (String × ℚ)) (k : String) (d : ℚ) : ℚ :=
  match (tf.filter (fun p => p.1 == k)).getLast? with
  | some p => p.2
  | none => d

/-- The farmer-input fields the advisory engine reads
(src/api/predict.py `FarmerInputs`). -/
structure FarmerInputs where
  fertilizer_N_kg : Option ℚ
  fertilizer_P_kg : Option ℚ
  fertilizer_K_kg : Option ℚ
  irrigation_events : Option ℕ
deriving DecidableEq

/-- src/api/advisory.py `load_advisory_rules`, `fertilizer` table entry. -/
structure FertRules where
  N_recommended : ℕ
  P_recommended : ℕ
  K_recommended : ℕ
  split_applications : ℕ
deriving DecidableEq

/-- `advisory_rules['fertilizer'].get(crop, rules['rice'])`. -/
def fertilizer_rules (crop : String) : FertRules :=
  if crop = "rice" then ⟨120, 60, 40, 3⟩
  else if crop = "wheat" then ⟨100, 50, 30, 2⟩
  else ⟨120, 60, 40, 3⟩

def low_rainfall_threshold : ℚ := 500
def high_rainfall_threshold : ℚ := 1200
def optimal_irrigation_events : ℕ := 8
def high_humidity_threshold : ℚ := 80
def high_temp_threshold : ℚ := 30

/-- src/api/advisory.py `AdvisoryEngine.generate_irrigation_advisory`:
the rainfall figure is read only from the top-feature attribution
dictionary (default 800); the farmer inputs are read into
`current_irrigation` but never used. -/
def generate_irrigation_advisory (top_features : List (String × ℚ))
    (farmer : Option FarmerInputs) : String :=
  let precip_sum := tfGetD top_features "precip_sum" 800
  let advisory :=
    if precip_sum < low_rainfall_threshold then
      "Low rainfall detected (" ++ fmtFixed0 precip_sum ++ "mm). Increase irrigation to " ++
        toString (optimal_irrigation_events + 2) ++
        " events. Apply 50-60mm per irrigation. Focus on critical growth stages: tillering and flowering."
    else if high_rainfall_threshold < precip_sum then
      "High rainfall detected (" ++ fmtFixed0 precip_sum ++
        "mm). Reduce irrigation frequency. Monitor for waterlogging. Ensure proper drainage. Apply irrigation only during dry spells."
    else
      "Normal rainfall pattern (" ++ fmtFixed0 precip_sum ++ "mm). Maintain " ++
        toString optimal_irrigation_events ++
        " irrigation events. Apply 40-50mm per irrigation. Monitor soil moisture at 15cm depth."
  let _ := farmer
  advisory ++ " Best irrigation times: early morning (6-8 AM) or evening (6-8 PM)."

/-- The nitrogen target the fertilizer advisory states: the crop's base
`N_recommended`, raised by 20 only when soil organic matter is below 1.0
(src/api/advisory.py lines 196-211). -/
def fert_recommended_n (crop : String) (soil_organic : ℚ) : ℕ :=
  let base := (fertilizer_rules crop).N_recommended
  if soil_organic < 1 then base + 20 else base

/-- src/api/advisory.py `AdvisoryEngine.generate_fertilizer_advisory`. -/
def generate_fertilizer_advisory (cropRaw : String) (top_features : List (String × ℚ))
    (farmer : Option FarmerInputs) : String :=
  let crop := strToLower cropRaw
  let soil_ph := tfGetD top_features "soil_phh2o" 6.5
  let soil_organic := tfGetD top_features "soil_soc" 1.5
  let current_n : ℚ := match farmer with
    | some f => f.fertilizer_N_kg.getD 0
    | none => 0
  let current_p : ℚ := match farmer with
    | some f => f.fertilizer_P_kg.getD 0
    | none => 0
  let current_k : ℚ := match farmer with
    | some f => f.fertilizer_K_kg.getD 0
    | none => 0
  let crop_rules := fertilizer_rules crop
  let adv :=
    if soil_ph < 6 then
      "Soil pH is low (" ++ fmtFixed1 soil_ph ++ "). Apply lime before fertilization. "
    else if (7.5 : ℚ) < soil_ph then
      "Soil pH is high (" ++ fmtFixed1 soil_ph ++ "). Consider sulfur application. "
    else "Soil pH is optimal (" ++ fmtFixed1 soil_ph ++ "). "
  let recommended_n := fert_recommended_n crop soil_organic
  let adv :=
    if soil_organic < 1 then
      adv ++ "Low organic matter detected. Increase nitrogen to " ++
        toString recommended_n ++ " kg/ha. "
    else adv
  let n_gap : ℚ := (recommended_n : ℚ) - current_n
  let adv :=
    if 10 < n_gap then adv ++ "Apply additional " ++ fmtFixed0 n_gap ++ " kg/ha nitrogen. "
    else if n_gap < -10 then
      adv ++ "Reduce nitrogen by " ++ fmtFixed0 |n_gap| ++ " kg/ha to avoid lodging. "
    else adv ++ "Current nitrogen level is adequate. "
  let adv :=
    if current_p < (crop_rules.P_recommended : ℚ) then
      adv ++ "Apply " ++ fmtFixed0 ((crop_rules.P_recommended : ℚ) - current_p) ++
        " kg/ha phosphorus. "
    else adv
  let adv :=
    if current_k < (crop_rules.K_recommended : ℚ) then
      adv ++ "Apply " ++ fmtFixed0 ((crop_rules.K_recommended : ℚ) - current_k) ++
        " kg/ha potassium. "
    else adv
  let adv := adv ++ "Split fertilizer application into " ++
    toString crop_rules.split_applications ++ " doses: "
  if crop = "rice" then adv ++ "basal (50%), tillering (25%), panicle initiation (25%)."
  else adv ++ "basal (60%), tillering/jointing (40%)."

/-- src/api/advisory.py `generate_pest_advisory` lines 256-270: the risk
classification, returning the final risk level and the accumulated risk
factors. A "High" set by humidity is never replaced (the temperature
check is guarded by `"High" not in risk_level`), and the rainfall check
can only set "High". -/
def pest_risk (humidity temp_max precip_sum : ℚ) : String × List String :=
  let rl := if high_humidity_threshold < humidity then "High" else "Low"
  let rf := if high_humidity_threshold < humidity then ["high humidity"] else []
  let step :=
    if high_temp_threshold < temp_max then
      (if strContains rl "High" then rl else "Medium", rf ++ ["high temperature"])
    else (rl, rf)
  if 1000 < precip_sum then ("High", step.2 ++ ["excessive rainfall"]) else step

/-- src/api/advisory.py `AdvisoryEngine.generate_pest_advisory`. -/
def generate_pest_advisory (cropRaw : String)
    (top_features : List (String × ℚ)) : String :=
  let crop := strToLower cropRaw
  let humidity := tfGetD top_features "humidity_mean" 75
  let temp_max := tfGetD top_features "temp_max" 30
  let precip_sum := tfGetD top_features "precip_sum" 800
  let rr := pest_risk humidity temp_max precip_sum
  let risk_level := rr.1
  let risk_factors := rr.2
  let adv := risk_level ++ " pest risk detected"
  let adv :=
    if !risk_factors.isEmpty then
      adv ++ " due to " ++ String.intercalate ", " risk_factors ++ ". "
    else adv ++ ". "
  let adv :=
    if crop = "rice" then
      if risk_level = "High" then
        adv ++ "Monitor for blast, brown spot, and stem borer. Apply preventive fungicide spray. Use pheromone traps for stem borer control. "
      else if risk_level = "Medium" then
        adv ++ "Regular field monitoring recommended. Watch for early signs of blast and bacterial blight. "
      else adv ++ "Continue regular field inspection. Maintain field hygiene. "
    else
      if risk_level = "High" then
        adv ++ "Increase field monitoring frequency. Consider preventive spray if weather continues. "
      else adv ++ "Regular monitoring sufficient. Maintain good field sanitation. "
  adv ++ "Use integrated pest management: biological control, resistant varieties, and targeted pesticide use."

end Advisory

end CropYield

namespace CropYield

theorem floor_le_halfEvenZ (q : ℚ) : ⌊q⌋ ≤ halfEvenZ q := by
  simp only [halfEvenZ]
  split_ifs <;> omega

theorem halfEvenZ_le_floor_add_one (q : ℚ) : halfEvenZ q ≤ ⌊q⌋ + 1 := by
  simp only [halfEvenZ]
  split_ifs <;> omega

theorem le_halfEvenZ (q : ℚ) : q - 1/2 ≤ (halfEvenZ q : ℚ) := by
  have h1 : (⌊q⌋ : ℚ) ≤ q := Int.floor_le q
  have h2 : q < ⌊q⌋ + 1 := Int.lt_floor_add_one q
  simp only [halfEvenZ]
  split_ifs <;> push_cast <;> linarith

theorem halfEvenZ_le (q : ℚ) : (halfEvenZ q : ℚ) ≤ q + 1/2 := by
  have h1 : (⌊q⌋ : ℚ) ≤ q := Int.floor_le q
  have h2 : q < ⌊q⌋ + 1 := Int.lt_floor_add_one q
  simp only [halfEvenZ]
  split_ifs <;> push_cast <;> linarith

theorem halfEvenZ_mono {x y : ℚ} (h : x ≤ y) : halfEvenZ x ≤ halfEvenZ y := by
  rcases lt_or_le ⌊x⌋ ⌊y⌋ with hf | hf
  · calc halfEvenZ x ≤ ⌊x⌋ + 1 := halfEvenZ_le_floor_add_one x
    _ ≤ ⌊y⌋ := by omega
    _ ≤ halfEvenZ y := floor_le_halfEvenZ y
  · have hxy : ⌊x⌋ ≤ ⌊y⌋ := Int.floor_le_floor h
    have hfe : ⌊x⌋ = ⌊y⌋ := le_antisymm hxy hf
    have hfr : x - (⌊x⌋ : ℚ) ≤ y - (⌊y⌋ : ℚ) := by
      rw [← hfe]; linarith
    simp only [halfEvenZ, ← hfe]
    split_ifs <;> first | omega | (exfalso; linarith)

theorem halfEvenZ_nonneg {q : ℚ} (h : 0 ≤ q) : 0 ≤ halfEvenZ q := by
  have := floor_le_halfEvenZ q
  have : (0:ℤ) ≤ ⌊q⌋ := Int.floor_nonneg.mpr h
  omega

theorem roundQ_abs_sub (n : ℕ) (x : ℚ) : |roundQ n x - x| ≤ 1 / (2 * 10 ^ n) := by
  have hd : (0:ℚ) < 10 ^ n := by positivity
  have h1 := le_halfEvenZ (x * 10 ^ n)
  have h2 := halfEvenZ_le (x * 10 ^ n)
  have key : (1 / (2 * (10:ℚ) ^ n)) * 10 ^ n = 1 / 2 := by field_simp; ring
  rw [abs_le]
  constructor
  · rw [roundQ, div_sub' _ _ _ (ne_of_gt hd), le_div_iff₀ hd]
    nlinarith [key]
  · rw [roundQ, div_sub' _ _ _ (ne_of_gt hd), div_le_iff₀ hd]
    nlinarith [key]

theorem roundQ_nonneg (n : ℕ) {x : ℚ} (h : 0 ≤ x) : 0 ≤ roundQ n x := by
  have hd : (0:ℚ) < 10 ^ n := by positivity
  have hz : (0:ℤ) ≤ halfEvenZ (x * 10 ^ n) := halfEvenZ_nonneg (by positivity)
  rw [roundQ]
  have : (0:ℚ) ≤ (halfEvenZ (x * 10 ^ n) : ℚ) := by exact_mod_cast hz
  positivity

theorem roundQ_mono (n : ℕ) {x y : ℚ} (h : x ≤ y) : roundQ n x ≤ roundQ n y := by
  have hd : (0:ℚ) < 10 ^ n := by positivity
  have hm : halfEvenZ (x * 10 ^ n) ≤ halfEvenZ (y * 10 ^ n) :=
    halfEvenZ_mono (by nlinarith)
  rw [roundQ, roundQ]
  gcongr

end CropYield

namespace CropYield

/-- C4: the full-pipeline confidence (utils.calculate_confidence_score) lies in
[0.1, 1.0] for every non-negative estimate, model_std ≥ 0 and quality in [0, 1],
and the simple-path confidence (CropYieldPredictor.calculate_confidence_score)
lies in [0.5, 0.95] for every input; the two clamp ranges are distinct. -/
theorem c4_theorem (prediction model_std feature_quality : ℚ)
    (test_r2 : Option ℚ) (simplePrediction draw : ℚ)
    (h1 : 0 ≤ prediction) (h2 : 0 ≤ model_std)
    (h3 : 0 ≤ feature_quality) (h4 : feature_quality ≤ 1) :
    ((0.1 : ℚ) ≤ Utils.calculate_confidence_score prediction model_std feature_quality ∧
      Utils.calculate_confidence_score prediction model_std feature_quality ≤ 1.0) ∧
    ((0.5 : ℚ) ≤ MlUtils.calculate_confidence_score test_r2 simplePrediction draw ∧
      MlUtils.calculate_confidence_score test_r2 simplePrediction draw ≤ 0.95) := by
  refine ⟨⟨le_max_left _ _, max_le (by norm_num) ((min_le_left _ _).trans (by norm_num))⟩,
    ⟨le_max_left _ _, max_le (by norm_num) ((min_le_left _ _).trans (by norm_num))⟩⟩

/-- C4 witness: the clamp bounds instantiated at concrete inputs. -/
theorem c4_witness :
    (0:ℚ) ≤ 3 ∧ (0:ℚ) ≤ 1/2 ∧ ((0:ℚ) ≤ 4/5 ∧ (4/5:ℚ) ≤ 1) ∧
    (((0.1 : ℚ) ≤ Utils.calculate_confidence_score 3 (1/2) (4/5) ∧
        Utils.calculate_confidence_score 3 (1/2) (4/5) ≤ 1.0) ∧
      ((0.5 : ℚ) ≤ MlUtils.calculate_confidence_score none 3 1 ∧
        MlUtils.calculate_confidence_score none 3 1 ≤ 0.95)) :=
  ⟨by norm_num, by norm_num, ⟨by norm_num, by norm_num⟩,
    c4_theorem 3 (1/2) (4/5) none 3 1 (by norm_num) (by norm_num) (by norm_num) (by norm_num)⟩

/-- C5 counterexample: at estimate 0.001 and confidence 0.95 (inside the clamp
range), the returned interval upper bound rounds to 0.0, so estimate ≤ high
fails for the interval the code actually returns. -/
theorem c5_counterexample :
    (0:ℚ) ≤ 0.001 ∧ ((1/2 : ℚ) ≤ 0.95 ∧ (0.95:ℚ) ≤ 19/20) ∧
    ¬ ((0.001:ℚ) ≤ (MlUtils.calculate_prediction_interval 0.001 0.95).2) := by
  refine ⟨by norm_num, ⟨by norm_num, by norm_num⟩, ?_⟩
  norm_num [MlUtils.calculate_prediction_interval, roundQ, halfEvenZ]

/-- C5 amended: for estimate ≥ 0 and confidence ≤ 1 the unrounded interval
satisfies low ≥ 0 and low ≤ estimate ≤ high; the returned 2-decimal-rounded
bounds still satisfy low ≥ 0 and low ≤ high and are each within 1/200 of the
exact bounds. -/
theorem c5_amended (p c : ℚ) (h0 : 0 ≤ p) (hc : c ≤ 1) :
    0 ≤ (MlUtils.calculate_prediction_interval p c).1 ∧
    (MlUtils.calculate_prediction_interval p c).1 ≤
      (MlUtils.calculate_prediction_interval p c).2 ∧
    max 0 (p - 1.96 * (p * (1 - c) * 0.5)) ≤ p ∧
    p ≤ p + 1.96 * (p * (1 - c) * 0.5) ∧
    |(MlUtils.calculate_prediction_interval p c).1 -
      max 0 (p - 1.96 * (p * (1 - c) * 0.5))| ≤ 1/200 ∧
    |(MlUtils.calculate_prediction_interval p c).2 -
      (p + 1.96 * (p * (1 - c) * 0.5))| ≤ 1/200 := by
  have hs : (0:ℚ) ≤ p * (1 - c) * 0.5 := by nlinarith
  have habs1 := (roundQ_abs_sub 2 (max 0 (p - 1.96 * (p * (1 - c) * 0.5)))).trans
    (by norm_num : (1:ℚ) / (2 * 10 ^ 2) ≤ 1/200)
  have habs2 := (roundQ_abs_sub 2 (p + 1.96 * (p * (1 - c) * 0.5))).trans
    (by norm_num : (1:ℚ) / (2 * 10 ^ 2) ≤ 1/200)
  simp only [MlUtils.calculate_prediction_interval]
  refine ⟨roundQ_nonneg 2 (le_max_left 0 _), roundQ_mono 2 ?_, ?_, by nlinarith, habs1, habs2⟩
  · exact max_le (by nlinarith) (by nlinarith)
  · exact max_le h0 (by nlinarith)

/-- C5 witness: the amended interval bounds at estimate 3, confidence 0.7. -/
theorem c5_witness :
    (0:ℚ) ≤ 3 ∧ (7/10:ℚ) ≤ 1 ∧
    (0 ≤ (MlUtils.calculate_prediction_interval 3 (7/10)).1 ∧
      (MlUtils.calculate_prediction_interval 3 (7/10)).1 ≤
        (MlUtils.calculate_prediction_interval 3 (7/10)).2 ∧
      max 0 ((3:ℚ) - 1.96 * (3 * (1 - 7/10) * 0.5)) ≤ 3 ∧
      (3:ℚ) ≤ 3 + 1.96 * (3 * (1 - 7/10) * 0.5) ∧
      |(MlUtils.calculate_prediction_interval 3 (7/10)).1 -
        max 0 ((3:ℚ) - 1.96 * (3 * (1 - 7/10) * 0.5))| ≤ 1/200 ∧
      |(MlUtils.calculate_prediction_interval 3 (7/10)).2 -
        ((3:ℚ) + 1.96 * (3 * (1 - 7/10) * 0.5))| ≤ 1/200) :=
  ⟨by norm_num, by norm_num, c5_amended 3 (7/10) (by norm_num) (by norm_num)⟩

/-- C6 counterexample: a bound-model output of −1 flows through
PredictionService.predict unclamped, so predicted_yield = −1 < 0. -/
theorem c6_counterexample :
    (PredictApi.servicePredict (-1) none 1).predicted_yield = -1 ∧
    ¬ (0 ≤ (PredictApi.servicePredict (-1) none 1).predicted_yield) := by
  have h : roundQ 2 (-1 : ℚ) = -1 := by norm_num [roundQ, halfEvenZ]
  exact ⟨by simp [PredictApi.servicePredict, h], by simp [PredictApi.servicePredict, h]⟩

/-- C6 amended: predicted_yield is the raw model output rounded to 2 decimals,
nonnegative whenever the model output is, and the interval lower bound is
always ≥ 0; no clamp is applied to the point estimate itself. -/
theorem c6_amended (m : ℚ) (fi : Option ℚ) (q : ℚ) (h : 0 ≤ m) :
    (PredictApi.servicePredict m fi q).predicted_yield = roundQ 2 m ∧
    0 ≤ (PredictApi.servicePredict m fi q).predicted_yield ∧
    0 ≤ (PredictApi.servicePredict m fi q).interval_low :=
  ⟨rfl, roundQ_nonneg 2 h, roundQ_nonneg 2 (le_max_left 0 _)⟩

/-- C6 witness: the amended properties at model output 4. -/
theorem c6_witness :
    (0:ℚ) ≤ 4 ∧
    ((PredictApi.servicePredict 4 none 1).predicted_yield = roundQ 2 4 ∧
      0 ≤ (PredictApi.servicePredict 4 none 1).predicted_yield ∧
      0 ≤ (PredictApi.servicePredict 4 none 1).interval_low) :=
  ⟨by norm_num, c6_amended 4 none 1 (by norm_num)⟩

/-- C7 counterexample: the simple-path confidence is not pure — with identical
inputs and state, random draws 0.9 and 1.0 give 0.72 and 0.8. -/
theorem c7_counterexample :
    ¬ (∀ (test_r2 : Option ℚ) (prediction r1 r2 : ℚ),
        0.9 ≤ r1 → r1 ≤ 1.1 → 0.9 ≤ r2 → r2 ≤ 1.1 →
        MlUtils.calculate_confidence_score test_r2 prediction r1 =
          MlUtils.calculate_confidence_score test_r2 prediction r2) := by
  intro h
  have h2 := h none 3 0.9 1 (by norm_num) (by norm_num) (by norm_num) (by norm_num)
  norm_num [MlUtils.calculate_confidence_score] at h2

theorem clamp_spread (b r1 r2 : ℚ) (hb0 : 0 ≤ b) (hb1 : b ≤ 0.95)
    (ha : 0.9 ≤ r1) (hb' : r1 ≤ 1.1) (hc : 0.9 ≤ r2) (hd : r2 ≤ 1.1) :
    |max 0.5 (min 0.95 (b * r1)) - max 0.5 (min 0.95 (b * r2))| ≤ 0.19 := by
  have l1 : |max (0.5:ℚ) (min 0.95 (b * r1)) - max 0.5 (min 0.95 (b * r2))|
      ≤ |min (0.95:ℚ) (b * r1) - min 0.95 (b * r2)| := by
    rw [max_comm (0.5:ℚ) (min 0.95 (b * r1)), max_comm (0.5:ℚ) (min 0.95 (b * r2))]
    exact abs_max_sub_max_le_abs _ _ _
  have l2 : |min (0.95:ℚ) (b * r1) - min 0.95 (b * r2)| ≤ |b * r1 - b * r2| := by
    have := abs_min_sub_min_le_max (0.95:ℚ) (b * r1) 0.95 (b * r2)
    simpa using this
  have l3 : |b * r1 - b * r2| ≤ 0.19 := by
    rw [← mul_sub, abs_mul, abs_of_nonneg hb0]
    have habs : |r1 - r2| ≤ 0.2 := by rw [abs_le]; constructor <;> linarith
    nlinarith [abs_nonneg (r1 - r2)]
  exact (l1.trans l2).trans l3

/-- C7 amended: the simple-path confidence varies with the fresh random draw by
at most 0.19 over the draw range [0.9, 1.1], and every output stays inside the
[0.5, 0.95] clamp. -/
theorem c7_amended (test_r2 : Option ℚ) (prediction r1 r2 : ℚ)
    (ha : 0.9 ≤ r1) (hb : r1 ≤ 1.1) (hc : 0.9 ≤ r2) (hd : r2 ≤ 1.1) :
    |MlUtils.calculate_confidence_score test_r2 prediction r1 -
      MlUtils.calculate_confidence_score test_r2 prediction r2| ≤ 0.19 ∧
    (0.5 : ℚ) ≤ MlUtils.calculate_confidence_score test_r2 prediction r1 ∧
    MlUtils.calculate_confidence_score test_r2 prediction r1 ≤ 0.95 := by
  refine ⟨?_, le_max_left _ _, max_le (by norm_num) ((min_le_left _ _).trans (by norm_num))⟩
  rcases test_r2 with _ | r2v <;> simp only [MlUtils.calculate_confidence_score] <;> split_ifs
  · exact clamp_spread _ _ _ (by norm_num) (by norm_num) ha hb hc hd
  · exact clamp_spread _ _ _ (by norm_num) (by norm_num) ha hb hc hd
  · have h1 : (0:ℚ) ≤ min 0.95 (max 0.5 r2v) :=
      le_min (by norm_num) ((by norm_num : (0:ℚ) ≤ 0.5).trans (le_max_left _ _))
    have h2 : min (0.95:ℚ) (max 0.5 r2v) ≤ 0.95 := min_le_left _ _
    exact clamp_spread _ _ _ (by nlinarith) (by nlinarith) ha hb hc hd
  · have h1 : (0:ℚ) ≤ min 0.95 (max 0.5 r2v) :=
      le_min (by norm_num) ((by norm_num : (0:ℚ) ≤ 0.5).trans (le_max_left _ _))
    have h2 : min (0.95:ℚ) (max 0.5 r2v) ≤ 0.95 := min_le_left _ _
    exact clamp_spread _ _ _ h1 h2 ha hb hc hd

/-- C7 witness: the amended bound at a concrete metadata, estimate and draw. -/
theorem c7_witness :
    ((0.9:ℚ) ≤ 1 ∧ (1:ℚ) ≤ 1.1) ∧
    (|MlUtils.calculate_confidence_score (some (4/5)) 3 1 -
        MlUtils.calculate_confidence_score (some (4/5)) 3 1| ≤ 0.19 ∧
      (0.5 : ℚ) ≤ MlUtils.calculate_confidence_score (some (4/5)) 3 1 ∧
      MlUtils.calculate_confidence_score (some (4/5)) 3 1 ≤ 0.95) :=
  ⟨⟨by norm_num, by norm_num⟩,
    c7_amended (some (4/5)) 3 1 1 (by norm_num) (by norm_num) (by norm_num) (by norm_num)⟩

theorem halfEvenZ_natCast (n : ℕ) : halfEvenZ (n : ℚ) = n := by
  norm_num [halfEvenZ]

set_option maxRecDepth 4000 in
/-- C10: the irrigation advisory reads rainfall only from the top-feature
dictionary; when precip_sum is absent the 800 mm default selects the
normal-rainfall branch (8 events, 40-50mm) for any farmer inputs. -/
theorem c10_theorem (tf : List (String × ℚ)) (farmer : Option Advisory.FarmerInputs)
    (h : ∀ p ∈ tf, p.1 ≠ "precip_sum") :
    Advisory.generate_irrigation_advisory tf farmer =
      "Normal rainfall pattern (800mm). Maintain 8 irrigation events. Apply 40-50mm per irrigation. Monitor soil moisture at 15cm depth. Best irrigation times: early morning (6-8 AM) or evening (6-8 PM)." := by
  have hfil : tf.filter (fun p => p.1 == "precip_sum") = [] := by
    rw [List.filter_eq_nil_iff]
    intro a ha
    simpa using h a ha
  have hget : Advisory.tfGetD tf "precip_sum" 800 = 800 := by
    simp [Advisory.tfGetD, hfil]
  have h800 : fmtFixed0 800 = "800" := by
    have hz : halfEvenZ ((800:ℕ) : ℚ) = (800:ℕ) := halfEvenZ_natCast 800
    norm_num at hz
    simp only [fmtFixed0, hz]
    decide
  simp only [Advisory.generate_irrigation_advisory, hget, h800,
    Advisory.low_rainfall_threshold, Advisory.high_rainfall_threshold,
    Advisory.optimal_irrigation_events]
  norm_num
  decide

/-- C10 witness: the theorem at a top-feature list without precip_sum. -/
theorem c10_witness :
    (∀ p ∈ [(("temp_max" : String), (32:ℚ))], p.1 ≠ "precip_sum") ∧
    Advisory.generate_irrigation_advisory [("temp_max", 32)] none =
      "Normal rainfall pattern (800mm). Maintain 8 irrigation events. Apply 40-50mm per irrigation. Monitor soil moisture at 15cm depth. Best irrigation times: early morning (6-8 AM) or evening (6-8 PM)." :=
  ⟨by decide, c10_theorem [("temp_max", 32)] none (by decide)⟩

set_option maxRecDepth 40000 in
/-- C8: pest risk High set by the humidity or excessive-rainfall signal is never
downgraded by later checks, and the rice scenario (humidity 90, temp 32,
precip 1200) produces exactly the High advisory text containing blast and
stem-borer guidance. -/
theorem c8_theorem (humidity temp_max precip_sum : ℚ)
    (h : Advisory.high_humidity_threshold < humidity ∨ 1000 < precip_sum) :
    (Advisory.pest_risk humidity temp_max precip_sum).1 = "High" ∧
    Advisory.generate_pest_advisory "rice"
        [("humidity_mean", 90), ("temp_max", 32), ("precip_sum", 1200)] =
      "High pest risk detected due to high humidity, high temperature, excessive rainfall. Monitor for blast, brown spot, and stem borer. Apply preventive fungicide spray. Use pheromone traps for stem borer control. Use integrated pest management: biological control, resistant varieties, and targeted pesticide use." ∧
    strContains (Advisory.generate_pest_advisory "rice"
        [("humidity_mean", 90), ("temp_max", 32), ("precip_sum", 1200)]) "blast" = true ∧
    strContains (Advisory.generate_pest_advisory "rice"
        [("humidity_mean", 90), ("temp_max", 32), ("precip_sum", 1200)]) "stem borer" = true := by
  refine ⟨?_, by decide, by decide, by decide⟩
  simp only [Advisory.pest_risk]
  rcases h with hh | hp
  · rw [if_pos hh]
    split_ifs <;> first
      | rfl
      | exact absurd (by decide : strContains "High" "High" = true)
          (by simp_all)
  · rw [if_pos hp]

/-- C8 witness: the theorem applied at the scenario values. -/
theorem c8_witness :
    (Advisory.high_humidity_threshold < 90 ∨ (1000:ℚ) < 1200) ∧
    ((Advisory.pest_risk 90 32 1200).1 = "High" ∧
      Advisory.generate_pest_advisory "rice"
          [("humidity_mean", 90), ("temp_max", 32), ("precip_sum", 1200)] =
        "High pest risk detected due to high humidity, high temperature, excessive rainfall. Monitor for blast, brown spot, and stem borer. Apply preventive fungicide spray. Use pheromone traps for stem borer control. Use integrated pest management: biological control, resistant varieties, and targeted pesticide use." ∧
      strContains (Advisory.generate_pest_advisory "rice"
          [("humidity_mean", 90), ("temp_max", 32), ("precip_sum", 1200)]) "blast" = true ∧
      strContains (Advisory.generate_pest_advisory "rice"
          [("humidity_mean", 90), ("temp_max", 32), ("precip_sum", 1200)]) "stem borer" = true) :=
  ⟨Or.inl (by decide), c8_theorem 90 32 1200 (Or.inl (by decide))⟩

set_option maxRecDepth 40000 in
/-- C9 counterexample: at soil pH 5.5 with defaults the text opens with the lime
recommendation, but the stated nitrogen target equals the base N_recommended
(120), not strictly greater. -/
theorem c9_counterexample :
    Advisory.tfGetD [("soil_phh2o", 5.5)] "soil_phh2o" 6.5 < 6 ∧
    Advisory.generate_fertilizer_advisory "rice" [("soil_phh2o", 5.5)] none =
      "Soil pH is low (5.5). Apply lime before fertilization. Apply additional 120 kg/ha nitrogen. Apply 60 kg/ha phosphorus. Apply 40 kg/ha potassium. Split fertilizer application into 3 doses: basal (50%), tillering (25%), panicle initiation (25%)." ∧
    Advisory.fert_recommended_n "rice"
        (Advisory.tfGetD [("soil_phh2o", 5.5)] "soil_soc" 1.5) =
      (Advisory.fertilizer_rules "rice").N_recommended ∧
    ¬ ((Advisory.fertilizer_rules "rice").N_recommended <
        Advisory.fert_recommended_n "rice"
          (Advisory.tfGetD [("soil_phh2o", 5.5)] "soil_soc" 1.5)) := by
  have hcrop : Advisory.strToLower "rice" = "rice" := by decide
  have hph : Advisory.tfGetD [("soil_phh2o", (5.5:ℚ))] "soil_phh2o" 6.5 = 5.5 := by
    simp +decide [Advisory.tfGetD]
  have hsoc : Advisory.tfGetD [("soil_phh2o", (5.5:ℚ))] "soil_soc" 1.5 = 1.5 := by
    simp +decide [Advisory.tfGetD]
  have hn : Advisory.fert_recommended_n "rice" (1.5:ℚ) = 120 := by
    norm_num [Advisory.fert_recommended_n, Advisory.fertilizer_rules]
  have e1 : fmtFixed1 (5.5:ℚ) = "5.5" := by
    have hz : halfEvenZ ((5.5:ℚ) * 10) = 55 := by norm_num [halfEvenZ]
    simp only [fmtFixed1, hz]
    decide
  have e120 : fmtFixed0 (120:ℚ) = "120" := by
    have hz : halfEvenZ (120:ℚ) = 120 := by norm_num [halfEvenZ]
    simp only [fmtFixed0, hz]
    decide
  have e60 : fmtFixed0 (60:ℚ) = "60" := by
    have hz : halfEvenZ (60:ℚ) = 60 := by norm_num [halfEvenZ]
    simp only [fmtFixed0, hz]
    decide
  have e40 : fmtFixed0 (40:ℚ) = "40" := by
    have hz : halfEvenZ (40:ℚ) = 40 := by norm_num [halfEvenZ]
    simp only [fmtFixed0, hz]
    decide
  have e1b : fmtFixed1 ((11:ℚ)/2) = "5.5" := by
    have hz : halfEvenZ ((11:ℚ)/2 * 10) = 55 := by norm_num [halfEvenZ]
    simp only [fmtFixed1, hz]
    decide
  refine ⟨by rw [hph]; norm_num, ?_,
    by rw [hsoc, hn]; norm_num [Advisory.fertilizer_rules],
    by rw [hsoc, hn]; norm_num [Advisory.fertilizer_rules]⟩
  simp only [Advisory.generate_fertilizer_advisory, hcrop, hph, hsoc, hn,
    Advisory.fertilizer_rules]
  norm_num [e1, e1b, e120, e60, e40]
  decide

/-- C9 amended: for any pH below 6 the fertilizer text opens with the lime
recommendation, and the stated nitrogen target exceeds the base exactly when
soil organic carbon is below 1.0. -/
theorem c9_amended (tf : List (String × ℚ)) (farmer : Option Advisory.FarmerInputs)
    (hph : Advisory.tfGetD tf "soil_phh2o" 6.5 < 6) :
    (∃ rest, Advisory.generate_fertilizer_advisory "rice" tf farmer =
      "Soil pH is low (" ++ fmtFixed1 (Advisory.tfGetD tf "soil_phh2o" 6.5) ++
        "). Apply lime before fertilization. " ++ rest) ∧
    ((Advisory.fertilizer_rules "rice").N_recommended <
        Advisory.fert_recommended_n "rice" (Advisory.tfGetD tf "soil_soc" 1.5) ↔
      Advisory.tfGetD tf "soil_soc" 1.5 < 1) := by
  constructor
  · simp only [Advisory.generate_fertilizer_advisory,
      (by decide : Advisory.strToLower "rice" = "rice")]
    rw [if_pos hph]
    simp only [reduceIte]
    split_ifs <;> (simp only [String.append_assoc]; exact ⟨_, rfl⟩)
  · simp only [Advisory.fert_recommended_n, Advisory.fertilizer_rules]
    norm_num
    split_ifs with hsoc
    · exact iff_of_true (by norm_num) hsoc
    · exact iff_of_false (by norm_num) hsoc

/-- C9 witness: the amended claim at pH 5.5 with defaults. -/
theorem c9_witness :
    Advisory.tfGetD [("soil_phh2o", (5.5:ℚ))] "soil_phh2o" 6.5 < 6 ∧
    ((∃ rest, Advisory.generate_fertilizer_advisory "rice" [("soil_phh2o", (5.5:ℚ))] none =
        "Soil pH is low (" ++
          fmtFixed1 (Advisory.tfGetD [("soil_phh2o", (5.5:ℚ))] "soil_phh2o" 6.5) ++
          "). Apply lime before fertilization. " ++ rest) ∧
      ((Advisory.fertilizer_rules "rice").N_recommended <
          Advisory.fert_recommended_n "rice"
            (Advisory.tfGetD [("soil_phh2o", (5.5:ℚ))] "soil_soc" 1.5) ↔
        Advisory.tfGetD [("soil_phh2o", (5.5:ℚ))] "soil_soc" 1.5 < 1)) := by
  have hph55 : Advisory.tfGetD [("soil_phh2o", (5.5:ℚ))] "soil_phh2o" 6.5 = 5.5 := by
    simp +decide [Advisory.tfGetD]
  exact ⟨by rw [hph55]; norm_num,
    c9_amended [("soil_phh2o", (5.5:ℚ))] none (by rw [hph55]; norm_num)⟩

/-- C3: serve-time categorical encoding with a fitted (nonempty) encoder never
raises: every value maps to its learned code, an unseen value to the code of
classes_[0], which is 0; the function is deterministic. -/
theorem c3_theorem (e : Features.LabelEncoder) (h : e.classes ≠ []) (vals : List String) :
    Features.encodeServeCol e vals =
      Except.ok (vals.map (fun v =>
        if e.classes.contains v then e.transformOne v
        else e.transformOne (e.classes.headD ""))) ∧
    e.transformOne (e.classes.headD "") = 0 := by
  obtain ⟨c0, rest, hcl⟩ : ∃ c0 rest, e.classes = c0 :: rest := by
    cases hc : e.classes with
    | nil => exact absurd hc h
    | cons a l => exact ⟨a, l, rfl⟩
  constructor
  · simp only [Features.encodeServeCol, Features.LabelEncoder.transform, hcl]
    split_ifs with hall hall2
    · congr 1
      refine List.map_congr_left (fun v hv => ?_)
      rw [if_pos (by
        have := (List.all_eq_true.mp hall) v hv
        simpa using this)]
    · congr 1
      rw [List.map_map]
      refine List.map_congr_left (fun v hv => ?_)
      by_cases hc : v = c0 ∨ v ∈ rest
      · simp [Function.comp, List.contains_cons, hc]
      · simp [Function.comp, List.contains_cons, hc]
    · exact absurd (List.all_eq_true.mpr (fun v hv => by
        rcases List.mem_map.mp hv with ⟨w, _, hw⟩
        by_cases hcw : (c0 :: rest).contains w
        · simp only [← hw, if_pos hcw]
          exact hcw
        · simp only [← hw, if_neg hcw]
          simp [List.contains_cons])) hall2
  · simp [hcl, Features.LabelEncoder.transformOne]

/-- C3 witness: the encoder fitted on maize/rice/wheat encoding an unseen
value. -/
theorem c3_witness :
    (Features.LabelEncoder.mk ["maize", "rice", "wheat"]).classes ≠ [] ∧
    (Features.encodeServeCol ⟨["maize", "rice", "wheat"]⟩ ["barley", "rice"] =
        Except.ok (["barley", "rice"].map (fun v =>
          if (Features.LabelEncoder.mk ["maize", "rice", "wheat"]).classes.contains v then
            (Features.LabelEncoder.mk ["maize", "rice", "wheat"]).transformOne v
          else (Features.LabelEncoder.mk ["maize", "rice", "wheat"]).transformOne
            ((Features.LabelEncoder.mk ["maize", "rice", "wheat"]).classes.headD ""))) ∧
      (Features.LabelEncoder.mk ["maize", "rice", "wheat"]).transformOne
        ((Features.LabelEncoder.mk ["maize", "rice", "wheat"]).classes.headD "") = 0) :=
  ⟨by decide, c3_theorem ⟨["maize", "rice", "wheat"]⟩ (by decide) ["barley", "rice"]⟩

set_option maxRecDepth 4000 in
/-- C1 counterexample: at fit time temp_mean (3 distinct values, variance 1) is
scaled and its scaler frozen, but the serve-time call on a single record leaves
the value 5 untouched instead of applying the frozen transform (which gives 3):
the scaled-column set is re-decided per call, not frozen. -/
theorem c1_counterexample :
    Features.cols_to_scale [("temp_mean", Features.ColData.num [0,2,2,2,2,2,2,4])] =
      ["temp_mean"] ∧
    (Features.scale_features Features.Engineer.empty
        [("temp_mean", Features.ColData.num [0,2,2,2,2,2,2,4])] true).2.scalers =
      [("temp_mean", ⟨2, 1⟩)] ∧
    Features.Scaler.transform ⟨2, 1⟩ 5 = 3 ∧
    (Features.scale_features
        (Features.scale_features Features.Engineer.empty
          [("temp_mean", Features.ColData.num [0,2,2,2,2,2,2,4])] true).2
        [("temp_mean", Features.ColData.num [5])] false).1 =
      [("temp_mean", Features.ColData.num [5])] ∧
    ((5:ℚ) ≠ 3) ∧ ((1:ℚ) ≠ 0) := by
  have hcols : Features.cols_to_scale [("temp_mean", Features.ColData.num [0,2,2,2,2,2,2,4])]
      = ["temp_mean"] := by decide
  have hserve : ∀ eng : Features.Engineer,
      (Features.scale_features eng [("temp_mean", Features.ColData.num [5])] false).1
        = [("temp_mean", Features.ColData.num [5])] := by
    intro eng
    have hc5 : Features.cols_to_scale [("temp_mean", Features.ColData.num [5])] = [] := by
      decide
    simp [Features.scale_features, hc5]
  have hsq : Features.ratSqrt 1 = 1 := by
    simp [Features.ratSqrt]
  have htr : Features.Scaler.transform ⟨2, 1⟩ 5 = 3 := by
    simp [Features.Scaler.transform, Features.Scaler.scale, hsq]
    norm_num
  refine ⟨hcols, ?_, htr, hserve _, by norm_num, by norm_num⟩
  simp only [Features.scale_features, Features.Engineer.empty, hcols, List.foldl]
  norm_num [Features.getNum, Features.setNum, Features.setCol, Features.insertA,
    Features.Scaler.fit, Features.listMean, Features.Scaler.transform,
    Features.hasCol, List.find?, List.sum_cons, List.sum_nil, Features.Scaler.mk.injEq]

set_option maxRecDepth 4000 in
/-- C1 amended: the ≤2-distinct-value heuristic is re-evaluated on every call,
so on any serve input whose columns all have at most 2 distinct values (in
particular every single-record input) no column is scaled and the state is
unchanged, regardless of the frozen fit-time decision. -/
theorem c1_amended (eng : Features.Engineer) (X : Features.Frame)
    (h : ∀ c ∈ X, Features.nuniqueCol c.2 ≤ 2) :
    (Features.scale_features eng X false).1 = X ∧
    (Features.scale_features eng X false).2 = eng := by
  have hc : Features.cols_to_scale X = [] := by
    simp only [Features.cols_to_scale, List.map_eq_nil_iff, List.filter_eq_nil_iff]
    intro c hcX
    have hd : decide (Features.nuniqueCol c.2 ≤ 2) = true := decide_eq_true (h c hcX)
    simp [hd]
  simp [Features.scale_features, hc]

/-- C1 witness: serve-time scaling on a single record with a frozen scaler
present. -/
theorem c1_witness :
    (∀ c ∈ [("temp_mean", Features.ColData.num [5])], Features.nuniqueCol c.2 ≤ 2) ∧
    ((Features.scale_features ⟨[("temp_mean", ⟨2, 1⟩)], [], [], []⟩
        [("temp_mean", Features.ColData.num [5])] false).1 =
      [("temp_mean", Features.ColData.num [5])] ∧
    (Features.scale_features ⟨[("temp_mean", ⟨2, 1⟩)], [], [], []⟩
        [("temp_mean", Features.ColData.num [5])] false).2 =
      ⟨[("temp_mean", ⟨2, 1⟩)], [], [], []⟩) :=
  ⟨by decide, c1_amended ⟨[("temp_mean", ⟨2, 1⟩)], [], [], []⟩
    [("temp_mean", Features.ColData.num [5])] (by decide)⟩

namespace Features

theorem hasCol_true_iff (df : Frame) (n : String) :
    hasCol df n = true ↔ n ∈ colNames df := by
  simp [hasCol, colNames, List.any_eq_true, List.mem_map]

theorem hasCol_congr {df₁ df₂ : Frame} (h : colNames df₁ = colNames df₂) (n : String) :
    hasCol df₁ n = hasCol df₂ n := by
  have h1 := hasCol_true_iff df₁ n
  have h2 := hasCol_true_iff df₂ n
  rw [h, ← h2] at h1
  exact Bool.eq_iff_iff.mpr h1

theorem colNames_setNum {df : Frame} {n : String} (h : hasCol df n = true) (vs : List ℚ) :
    colNames (setNum df n vs) = colNames df := by
  simp only [setNum, setCol, h, if_true, colNames, List.map_map]
  refine List.map_congr_left (fun c _ => ?_)
  by_cases hc : c.1 = n
  · simp [Function.comp, hc]
  · simp [Function.comp, hc]

theorem mem_cols_to_scale_hasCol {X : Frame} {c : String} (h : c ∈ cols_to_scale X) :
    hasCol X c = true := by
  simp only [cols_to_scale, List.mem_map] at h
  rcases h with ⟨p, hp, hfst⟩
  have hmem := List.mem_of_mem_filter hp
  simp only [hasCol, List.any_eq_true]
  exact ⟨p, hmem, by simp [hfst]⟩

theorem scale_serve_state (eng : Engineer) (X : Frame) :
    (scale_features eng X false).2 = eng := by
  simp [scale_features]

theorem scale_serve_colNames (eng : Engineer) (X : Frame) :
    colNames ((scale_features eng X false).1) = colNames X := by
  simp only [scale_features, Bool.false_eq_true, if_false]
  have main : ∀ (cols : List String) (acc : Frame),
      colNames acc = colNames X → (∀ c ∈ cols, hasCol X c = true) →
      colNames (cols.foldl (fun Y col =>
        match lookupA eng.scalers col with
        | some s => setNum Y col ((getNum Y col).map s.transform)
        | none => Y) acc) = colNames X := by
    intro cols
    induction cols with
    | nil => intro acc hacc _; simpa using hacc
    | cons c cs ih =>
      intro acc hacc hall
      simp only [List.foldl_cons]
      rcases hlk : lookupA eng.scalers c with _ | s
      · exact ih acc hacc (fun d hd => hall d (List.mem_cons_of_mem _ hd))
      · have hcol : hasCol acc c = true := by
          rw [hasCol_congr hacc]
          exact hall c (List.mem_cons_self c cs)
        exact ih _ ((colNames_setNum hcol _).trans hacc)
          (fun d hd => hall d (List.mem_cons_of_mem _ hd))
  exact main (cols_to_scale X) X rfl (fun c hc => mem_cols_to_scale_hasCol hc)

theorem colNames_selectColsFrame (df : Frame) (names : List String) :
    colNames (selectColsFrame df names) = names.filter (fun n => hasCol df n) := by
  induction names with
  | nil => rfl
  | cons n ns ih =>
    simp only [selectColsFrame, List.filterMap_cons, List.filter_cons]
    rcases hf : df.find? (fun c => c.1 == n) with _ | p <;> simp only [hf]
    · have : hasCol df n = false := by
        simp only [hasCol]
        rw [List.any_eq_false]
        intro c hc
        have := List.find?_eq_none.mp hf c hc
        simpa using this
      simp only [this, Bool.false_eq_true, if_false]
      exact ih
    · have hp : p.1 = n := by
        have := List.find?_some hf
        simpa using this
      have : hasCol df n = true := by
        simp only [hasCol, List.any_eq_true]
        exact ⟨p, List.mem_of_find?_eq_some hf, by simp [hp]⟩
      simp only [this, if_true, colNames, List.map_cons, hp]
      exact congrArg (n :: ·) ih

end Features

namespace Features

theorem encodeServeCol_isOk (e : LabelEncoder) (h : e.classes ≠ []) (vals : List String) :
    ∃ codes, encodeServeCol e vals = Except.ok codes := by
  obtain ⟨c0, rest, hcl⟩ : ∃ c0 rest, e.classes = c0 :: rest := by
    cases hc : e.classes with
    | nil => exact absurd hc h
    | cons a l => exact ⟨a, l, rfl⟩
  simp only [encodeServeCol, LabelEncoder.transform, hcl]
  split_ifs with hall hall2
  · exact ⟨_, rfl⟩
  · exact ⟨_, rfl⟩
  · refine absurd (List.all_eq_true.mpr (fun v hv => ?_)) hall2
    rcases List.mem_map.mp hv with ⟨w, _, hw⟩
    by_cases hcw : (c0 :: rest).contains w
    · simp only [← hw, if_pos hcw]
      exact hcw
    · simp only [← hw, if_neg hcw]
      simp [List.contains_cons]

theorem lookupA_mem {α : Type} {l : List (String × α)} {k : String} {v : α}
    (h : lookupA l k = some v) : ∃ p ∈ l, p.2 = v := by
  simp only [lookupA] at h
  rcases hf : l.find? (fun p => p.1 == k) with _ | p
  · rw [hf] at h; cases h
  · rw [hf] at h
    cases h
    exact ⟨p, List.mem_of_find?_eq_some hf, rfl⟩

theorem encode_serve_ok_aux (cols : List String) :
    ∀ (df : Frame) (eng : Engineer), (∀ p ∈ eng.encoders, p.2.classes ≠ []) →
    ∃ df2, cols.foldlM (encodeStep false) (df, eng) = Except.ok (df2, eng) := by
  induction cols with
  | nil => exact fun df eng _ => ⟨df, rfl⟩
  | cons c cs ih =>
    intro df eng henc
    rw [List.foldlM_cons]
    have hstep : ∃ df1, encodeStep false (df, eng) c = Except.ok (df1, eng) := by
      simp only [encodeStep, Bool.false_eq_true, if_false]
      split_ifs with h1
      · rcases hlk : lookupA eng.encoders c with _ | e
        · exact ⟨df, rfl⟩
        · rcases lookupA_mem hlk with ⟨p, hp, hpe⟩
          have hne : e.classes ≠ [] := hpe ▸ henc p hp
          rcases encodeServeCol_isOk e hne (getStr df c) with ⟨codes, hcodes⟩
          exact ⟨setNum df (c ++ "_encoded") (codes.map (fun n => (n : ℚ))),
            by simp [hcodes, Except.map]⟩
      · exact ⟨df, rfl⟩
    rcases hstep with ⟨df1, hdf1⟩
    rw [hdf1]
    simpa using ih df1 eng henc

theorem engineer_serve_ok (fns : TransFns) (eng : Engineer) (df : Frame)
    (henc : ∀ p ∈ eng.encoders, p.2.classes ≠ []) :
    ∃ X0, engineer_features fns eng df false = Except.ok (X0, eng) := by
  simp only [engineer_features, encode_categorical_features]
  rcases encode_serve_ok_aux categorical_cols
      (create_interaction_features (create_temporal_features fns
        (create_soil_features (create_weather_features df)))) eng henc with ⟨df2, h2⟩
  rw [h2]
  exact ⟨df2, by simp [Except.map]⟩

end Features

/-- C2 amended: the serve-time transform never fails on a missing selected
name: with nonempty frozen selection (and well-formed encoders) it returns
Except.ok with state unchanged, and the output columns are exactly the frozen
selected names filtered by presence in the computed set, in frozen order. -/
theorem c2_amended (fns : Features.TransFns) (score : List ℚ → List ℚ → ℚ)
    (eng : Features.Engineer) (df : Features.Frame) (target : String) (fs : Bool)
    (henc : ∀ p ∈ eng.encoders, p.2.classes ≠ [])
    (hsel : eng.selected_features ≠ []) :
    ∃ X0 X y,
      Features.engineer_features fns eng df false = Except.ok (X0, eng) ∧
      Features.prepare_features fns score eng df target false fs =
        Except.ok (X, y, eng) ∧
      Features.colNames X = eng.selected_features.filter (fun c =>
        Features.hasCol (Features.dropCols
          (if Features.hasCol X0 target then Features.dropCols X0 [target] else X0)
          Features.cols_to_remove) c) := by
  rcases Features.engineer_serve_ok fns eng df henc with ⟨X0, hX0⟩
  have hne : eng.selected_features.isEmpty = false := by
    cases h : eng.selected_features with
    | nil => exact absurd h hsel
    | cons a l => rfl
  refine ⟨X0,
    (Features.scale_features eng (Features.selectColsFrame
      (Features.dropCols (if Features.hasCol X0 target then Features.dropCols X0 [target] else X0)
        Features.cols_to_remove)
      (eng.selected_features.filter (fun c => Features.hasCol
        (Features.dropCols (if Features.hasCol X0 target then Features.dropCols X0 [target] else X0)
          Features.cols_to_remove) c))) false).1,
    (if Features.hasCol X0 target then some (Features.getNum X0 target) else none),
    hX0, ?_, ?_⟩
  · simp only [Features.prepare_features, hX0, Except.map]
    rw [if_neg (by simp)]
    rw [if_pos (show (!false && !eng.selected_features.isEmpty) = true by simp [hne])]
    rw [Features.scale_serve_state]
  · rw [Features.scale_serve_colNames, Features.colNames_selectColsFrame]
    simp [List.filter_filter, Bool.and_self]

set_option maxRecDepth 100000 in
/-- C2 counterexample: with frozen selection [soil_phh2o, drought_stress] and a
record whose computed feature set lacks drought_stress (precipitation family
ungated), serve-time prepare_features succeeds and silently drops the name
instead of failing with a SchemaMismatch error. -/
theorem c2_counterexample :
    "drought_stress" ∈
      (Features.Engineer.mk [] [] [] ["soil_phh2o", "drought_stress"]).selected_features ∧
    (Features.engineer_features ⟨fun _ => 0, fun _ => 0⟩
        ⟨[], [], [], ["soil_phh2o", "drought_stress"]⟩
        [("soil_phh2o", Features.ColData.num [5])] false).toOption.map
        (fun r => Features.colNames r.1) =
      some ["soil_phh2o", "soil_ph_optimal", "soil_ph_stress"] ∧
    "drought_stress" ∉ (["soil_phh2o", "soil_ph_optimal", "soil_ph_stress"] : List String) ∧
    Features.prepare_features ⟨fun _ => 0, fun _ => 0⟩ (fun _ _ => 0)
        ⟨[], [], [], ["soil_phh2o", "drought_stress"]⟩
        [("soil_phh2o", Features.ColData.num [5])] "yield_t_ha" false true =
      Except.ok ([("soil_phh2o", Features.ColData.num [5])], none,
        ⟨[], [], [], ["soil_phh2o", "drought_stress"]⟩) ∧
    Features.colNames [("soil_phh2o", Features.ColData.num [5])] ≠
      ["soil_phh2o", "drought_stress"] :=
  ⟨by decide, by decide, by decide, rfl, by decide⟩

/-- C2 witness: the amended claim at the concrete engineer and record of the
counterexample. -/
theorem c2_witness :
    (∀ p ∈ (Features.Engineer.mk [] [] [] ["soil_phh2o", "drought_stress"]).encoders,
      p.2.classes ≠ []) ∧
    (Features.Engineer.mk [] [] [] ["soil_phh2o", "drought_stress"]).selected_features ≠ [] ∧
    (∃ X0 X y,
      Features.engineer_features ⟨fun _ => 0, fun _ => 0⟩
          ⟨[], [], [], ["soil_phh2o", "drought_stress"]⟩
          [("soil_phh2o", Features.ColData.num [5])] false =
        Except.ok (X0, ⟨[], [], [], ["soil_phh2o", "drought_stress"]⟩) ∧
      Features.prepare_features ⟨fun _ => 0, fun _ => 0⟩ (fun _ _ => 0)
          ⟨[], [], [], ["soil_phh2o", "drought_stress"]⟩
          [("soil_phh2o", Features.ColData.num [5])] "yield_t_ha" false true =
        Except.ok (X, y, ⟨[], [], [], ["soil_phh2o", "drought_stress"]⟩) ∧
      Features.colNames X =
        (Features.Engineer.mk [] [] [] ["soil_phh2o", "drought_stress"]).selected_features.filter
          (fun c => Features.hasCol (Features.dropCols
            (if Features.hasCol X0 "yield_t_ha" then Features.dropCols X0 ["yield_t_ha"] else X0)
            Features.cols_to_remove) c)) :=
  ⟨by decide, by decide,
    c2_amended ⟨fun _ => 0, fun _ => 0⟩ (fun _ _ => 0)
      ⟨[], [], [], ["soil_phh2o", "drought_stress"]⟩
      [("soil_phh2o", Features.ColData.num [5])] "yield_t_ha" true
      (by decide) (by decide)⟩

end CropYield
